import Mathlib

/-!
Verification of xbox-media-utils: a shallow embedding of the compatibility
analyzer, command synthesizer, fallback executor, output validator,
replacement protocol, subtitle pipeline and HDR10 remediation from
`src/xbox_media_utils`, with theorems settling the specification claims.

Conventions: Python `pathlib.Path` values are plain strings; the filesystem
is a partial map from path strings to file sizes; external subprocess calls
(ffmpeg, ffprobe, the OCR ripper) are parameterized by an environment record
describing their observable outcome.
-/

namespace XboxMediaUtils

/-! ## Data model (models.py) -/

structure AudioTrack where
  index : Nat
  codec : String
  channels : Nat := 0
  language : Option String := none
  needs_recode : Bool := false
  recode_reason : Option String := none
deriving Repr, DecidableEq

structure SubtitleTrack where
  index : Nat
  codec : String
  language : Option String := none
  title : Option String := none
  is_text : Bool := false
  is_image : Bool := false
  is_default : Bool := false
  is_forced : Bool := false
deriving Repr, DecidableEq

structure MediaInfo where
  path : String
  video_codec : Option String := none
  video_bit_depth : Option Nat := none
  video_hdr : Bool := false
  video_hdr_type : Option String := none
  audio_tracks : List AudioTrack := []
  needs_video_recode : Bool := false
  video_recode_reason : Option String := none
  probe_error : Option String := none
  subtitle_tracks : List SubtitleTrack := []
  dovi_profile : Option Nat := none
  has_dovi_profile_8 : Bool := false
deriving Repr, DecidableEq

/-- Embedding of the `MediaInfo.needs_audio_recode` property from models.py. -/
def MediaInfo.needs_audio_recode (info : MediaInfo) : Bool :=
  info.audio_tracks.any (·.needs_recode)

/-! ## Constants (constants.py) -/

def COMPATIBLE_VIDEO_CODECS : List String := ["h264", "hevc", "vp9"]

def VAAPI_INCOMPATIBLE_CODECS : List String :=
  ["mpeg4", "msmpeg4v1", "msmpeg4v2", "msmpeg4v3"]

def TEXT_SUBTITLE_CODECS : List String :=
  ["subrip", "srt", "ass", "ssa", "mov_text", "webvtt", "text", "sami"]

def IMAGE_SUBTITLE_CODECS : List String :=
  ["hdmv_pgs_subtitle", "dvd_subtitle", "dvb_subtitle", "pgs", "vobsub"]

/-! ## Compatibility analyzer (media.py, `analyze_recode_needs`) -/

/-- Python truthiness of `info.video_codec` (an `Optional[str]`):
`None` and `""` are falsy. -/
def optStrTruthy : Option String → Bool
  | none => false
  | some s => !(s = "")

/-- The channel-layout label from `analyze_recode_needs`:
`f"{channels - 1}.1" if track.channels in (6, 8) else f"{track.channels}ch"`. -/
def chLabel (channels : Nat) : String :=
  if channels = 6 ∨ channels = 8 then toString (channels - 1) ++ ".1"
  else toString channels ++ "ch"

/-- Per-track audio analysis from `analyze_recode_needs`. -/
def analyzeAudioTrack (t : AudioTrack) : AudioTrack :=
  if t.channels > 2 then
    { t with needs_recode := true,
             recode_reason :=
               some (t.codec ++ " " ++ chLabel t.channels ++ " -> AAC stereo") }
  else t

/-- Embedding of `analyze_recode_needs(info)` (media.py lines 182-194): sets the video
recode flag for a non-empty codec outside the compatible set, and flags every
audio track with more than two channels. -/
def analyze_recode_needs (info : MediaInfo) : MediaInfo :=
  let info :=
    if optStrTruthy info.video_codec ∧
        (info.video_codec.getD "") ∉ COMPATIBLE_VIDEO_CODECS then
      { info with
          needs_video_recode := true,
          video_recode_reason :=
            some ("incompatible codec: " ++ info.video_codec.getD "") }
    else info
  { info with audio_tracks := info.audio_tracks.map analyzeAudioTrack }

/-- Embedding of `needs_processing(info)` (media.py). -/
def needs_processing (info : MediaInfo) : Bool :=
  info.needs_video_recode || info.needs_audio_recode

/-- Embedding of `has_extractable_subs(info)` (media.py). -/
def has_extractable_subs (info : MediaInfo) : Bool :=
  info.subtitle_tracks.any (fun s => s.is_text || s.is_image)

/-- Embedding of `can_use_vaapi(info, use_hardware)` (media.py lines 220-233). The Python
guard `if info.video_bit_depth and info.video_bit_depth > 8` treats `None`
(and `0`) as falsy, so an unknown bit depth does not block hardware. -/
def can_use_vaapi (info : MediaInfo) (use_hardware : Bool := true) : Bool :=
  if !use_hardware || !info.needs_video_recode then false
  else if (match info.video_bit_depth with
           | some d => decide (0 < d) && decide (8 < d)
           | none => false) then false
  else if (match info.video_codec with
           | some c => decide (c ∈ VAAPI_INCOMPATIBLE_CODECS)
           | none => false) then false
  else true

/-! ## Filesystem model

A filesystem is a partial map from path strings to file sizes (the only
attribute of file content the code observes is `stat().st_size`; preserving
the mapped value models preserving the file unmodified). -/

def FS := String → Option Nat

/-- Model of `src.rename(dst)`: POSIX rename, overwriting `dst`. -/
def fsRename (fs : FS) (src dst : String) : FS :=
  fun p => if p = dst then fs src else if p = src then none else fs p

/-- Model of `p.unlink()`. -/
def fsUnlink (fs : FS) (path : String) : FS :=
  fun p => if p = path then none else fs p

/-- Model of `p.exists()`. -/
def fsExists (fs : FS) (path : String) : Bool :=
  (fs path).isSome

/-- Creating/overwriting a file of a given size. -/
def fsWrite (fs : FS) (path : String) (size : Nat) : FS :=
  fun p => if p = path then some size else fs p

/-- Split a character list on a separator (semantics of `str.split(sep)` for
a one-character separator; structurally recursive so it reduces in the
kernel). -/
def splitOnChar (sep : Char) : List Char → List (List Char)
  | [] => [[]]
  | c :: rest =>
    match splitOnChar sep rest with
    | [] => [[c]]
    | h :: t => if c = sep then [] :: h :: t else (c :: h) :: t

/-- The `/`-separated components of a path string. -/
def pathSplit (p : String) : List String :=
  (splitOnChar '/' p.data).map (fun l => ⟨l⟩)

/-- Model of `sep.join(parts)`. -/
def strIntercalate (sep : String) : List String → String
  | [] => ""
  | [x] => x
  | x :: xs => x ++ sep ++ strIntercalate sep xs

/-! ## Command synthesizer (ffmpeg.py, `build_ffmpeg_cmd`) -/

def DOWNMIX_FILTER : String :=
  "pan=stereo|FL=0.5*FC+0.707*FL+0.707*BL+0.5*LFE|FR=0.5*FC+0.707*FR+0.707*BR+0.5*LFE"

def CRF_QUALITY : Nat := 16
def VAAPI_QP : Nat := 18
def HEVC_PRESET : String := "slow"

/-- The per-audio-track arguments of `build_ffmpeg_cmd` (the
`for i, track in enumerate(info.audio_tracks)` loop), starting at
enumeration index `i`. -/
def audioArgs : Nat → List AudioTrack → List String
  | _, [] => []
  | i, t :: rest =>
    (if t.needs_recode then
      ["-c:a:" ++ toString i, "aac", "-ac:a:" ++ toString i, "2",
       "-b:a:" ++ toString i, "256k",
       "-filter:a:" ++ toString i, DOWNMIX_FILTER]
     else
      ["-c:a:" ++ toString i, "copy"]) ++ audioArgs (i + 1) rest

/-- The video-handling arguments of `build_ffmpeg_cmd`. -/
def videoArgs (info : MediaInfo) (use_vaapi : Bool) : List String :=
  if info.needs_video_recode then
    if use_vaapi then
      ["-c:v", "hevc_vaapi", "-qp", toString VAAPI_QP, "-tag:v", "hvc1"]
    else
      let x265_params : List String :=
        if info.video_hdr then ["hdr-opt=1", "repeat-headers=1"] else []
      let base := ["-c:v", "libx265", "-crf", toString CRF_QUALITY,
                   "-preset", HEVC_PRESET, "-tag:v", "hvc1"]
      let tenBit :=
        match info.video_bit_depth with
        | some d => decide (0 < d) && decide (10 ≤ d)
        | none => false
      let base := if tenBit then base ++ ["-pix_fmt", "yuv420p10le"] else base
      let x265_params :=
        if tenBit then x265_params ++ ["profile=main10"] else x265_params
      if x265_params ≠ [] then
        base ++ ["-x265-params", strIntercalate ":" x265_params]
      else base
  else
    ["-c:v", "copy"]

/-- Embedding of `build_ffmpeg_cmd(info, output_path, use_vaapi)` (ffmpeg.py lines 21-93). -/
def build_ffmpeg_cmd (info : MediaInfo) (output_path : String)
    (use_vaapi : Bool := true) : List String :=
  ["ffmpeg"]
    ++ (if info.needs_video_recode && use_vaapi then
          ["-hwaccel", "vaapi", "-hwaccel_output_format", "vaapi",
           "-vaapi_device", "/dev/dri/renderD128"]
        else [])
    ++ ["-i", info.path]
    ++ ["-map", "0:v:0", "-map", "0:a"]
    ++ videoArgs info use_vaapi
    ++ audioArgs 0 info.audio_tracks
    ++ ["-sn"]
    ++ ["-max_muxing_queue_size", "65536"]
    ++ ["-y", output_path]

/-- The stream selectors that follow `-map` flags in an argument sequence. -/
def mapArgs : List String → List String
  | [] => []
  | [_] => []
  | x :: y :: rest =>
    if x = "-map" then y :: mapArgs rest else mapArgs (y :: rest)

/-! ## String and path helpers (modelling `str.lower`, substring tests and
the `pathlib.Path` operations the code uses; ASCII-faithful) -/

/-- ASCII `str.lower`. -/
def lowerChar (c : Char) : Char :=
  if 'A' ≤ c ∧ c ≤ 'Z' then Char.ofNat (c.toNat + 32) else c

def strLower (s : String) : String := ⟨s.data.map lowerChar⟩

/-- Python `needle in hay` on strings. -/
def strContainsSub (hay needle : String) : Bool :=
  decide (needle.data <:+: hay.data)

def basenameOf (p : String) : String := (pathSplit p).getLastD ""

/-- Index of the last dot character in a name, if any. -/
def lastDotIdx (l : List Char) : Option Nat :=
  ((l.enum.filter (fun q => q.2 == '.')).getLast?).map (·.1)

/-- Model of the `PurePath.stem` semantics on a single name: the suffix starts at the last
dot provided it is neither leading nor trailing. -/
def stemOfName (name : String) : String :=
  match lastDotIdx name.data with
  | some i =>
    if 0 < i ∧ i + 1 < name.data.length then ⟨name.data.take i⟩ else name
  | none => name

def pathStem (p : String) : String := stemOfName (basenameOf p)

/-- Model of `Path.with_suffix(suffix)`. -/
def pathWithSuffix (p : String) (suffix : String) : String :=
  let parts := pathSplit p
  let name := parts.getLastD ""
  strIntercalate "/" (parts.dropLast ++ [stemOfName name ++ suffix])

/-- Model of `Path.parent`. -/
def pathParent (p : String) : String :=
  let parts := pathSplit p
  if parts.length ≤ 1 then "."
  else if parts.dropLast = [""] then "/"
  else strIntercalate "/" parts.dropLast

/-- Model of `dir / name` for a directory and a bare file name. -/
def pathJoin (dir name : String) : String :=
  if dir = "." ∨ dir = "" then name
  else if dir = "/" then "/" ++ name
  else dir ++ "/" ++ name

/-! ## Output validator (ffmpeg.py, `validate_output`) -/

/-- Outcomes of the two ffprobe calls made by `validate_output`; `durParseOk`
models the `try` block around the two `float(...)` duration parses. -/
structure ProbeEnv where
  durParseOk : Bool := true
  inDur : ℚ := 0
  outDur : ℚ := 0
  streamParseOk : Bool := true
  outHasVideo : Bool := true
  outHasAudio : Bool := true
deriving Repr, DecidableEq

/-- Embedding of `validate_output(input_info, output_path)` (ffmpeg.py lines 96-145).
`output_size < input_size * 0.1` is the exact rational comparison
`10 * output_size < input_size`; durations are rationals. -/
def validate_output (inputSize : Nat) (inputHasAudio : Bool)
    (outputSize : Option Nat) (env : ProbeEnv) : Bool × String :=
  match outputSize with
  | none => (false, "Output file does not exist")
  | some osize =>
    if osize * 10 < inputSize then
      (false, "Output too small: " ++ toString osize ++ " vs " ++
        toString inputSize)
    else if env.durParseOk && decide (0 < env.inDur) && decide (0 < env.outDur)
        && decide ((1 : ℚ)/100 < |env.outDur - env.inDur| / env.inDur) then
      (false, "Duration mismatch: " ++ toString env.inDur ++ "s vs " ++
        toString env.outDur ++ "s")
    else if env.streamParseOk && !env.outHasVideo then
      (false, "Output missing video stream")
    else if env.streamParseOk && !env.outHasAudio && inputHasAudio then
      (false, "Output missing audio stream")
    else
      (true, "OK")

/-! ## Fallback executor (ffmpeg.py, `run_ffmpeg_with_fallback`) -/

def vaapi_errors : List String :=
  ["failed setup for format vaapi",
   "hwaccel initialisation returned error",
   "impossible to convert between the formats",
   "error reinitializing filters",
   "failed to inject frame into filter network"]

/-- Model of `any(err in stderr for err in vaapi_errors)` after `stderr.lower()`. -/
def isVaapiError (stderr : String) : Bool :=
  vaapi_errors.any (fun e => strContainsSub (strLower stderr) e)

/-- Observable outcome of the two possible ffmpeg invocations: exit code,
captured stderr, and the size of the output file each attempt leaves on disk
(`none` when no output file was produced). -/
structure ExecEnv where
  hwRc : Nat := 0
  hwStderr : String := ""
  hwOutSize : Option Nat := none
  swRc : Nat := 0
  swStderr : String := ""
  swOutSize : Option Nat := none
deriving Repr, DecidableEq

/-- Apply the file an ffmpeg attempt leaves at `output_path`, if any. -/
def fsApplyOut (fs : FS) (output_path : String) : Option Nat → FS
  | some s => fsWrite fs output_path s
  | none => fs

structure FallbackTrace where
  hwAttempted : Bool
  swAttempted : Bool
  success : Bool
  error : String
  fs : FS

/-- The single software attempt at the bottom of
`run_ffmpeg_with_fallback` (ffmpeg.py lines 186-194). -/
def swStage (hwAttempted : Bool) (output_path : String) (fs : FS)
    (env : ExecEnv) : FallbackTrace :=
  let fs1 := fsApplyOut fs output_path env.swOutSize
  if env.swRc = 0 then ⟨hwAttempted, true, true, "", fs1⟩
  else ⟨hwAttempted, true, false, env.swStderr, fs1⟩

/-- Embedding of `run_ffmpeg_with_fallback(info, output_path, use_hardware)`
(ffmpeg.py lines 148-194). -/
def run_ffmpeg_with_fallback (info : MediaInfo) (output_path : String)
    (use_hardware : Bool) (fs : FS) (env : ExecEnv) : FallbackTrace :=
  if can_use_vaapi info use_hardware then
    let fs1 := fsApplyOut fs output_path env.hwOutSize
    if env.hwRc = 0 then ⟨true, false, true, "", fs1⟩
    else if isVaapiError env.hwStderr then
      let fs2 := if fsExists fs1 output_path then fsUnlink fs1 output_path
                 else fs1
      swStage true output_path fs2 env
    else ⟨true, false, false, env.hwStderr, fs1⟩
  else
    swStage false output_path fs env

/-! ## Replacement protocol (recode.py, `process_file` lines 207-233) -/

/-- Which filesystem operations inside the replacement `try` blocks raise;
`rename1Ok` is the original→backup rename, `rename2Ok` the candidate→final
rename, `backupUnlinkOk` the final backup deletion. -/
structure ReplaceEnv where
  rename1Ok : Bool := true
  rename2Ok : Bool := true
  backupUnlinkOk : Bool := true
deriving Repr, DecidableEq

structure ReplaceResult where
  status : String
  error : Option String
  fs : FS

/-- The safe-replacement sequence of `process_file` (recode.py lines
207-233): rename original to `<name>.bak`, rename the validated candidate to
the final name, delete the backup; on a failed second rename, roll the
backup back and delete the candidate.  (`info.path.with_suffix(suffix +
".bak")` always appends `".bak"` to the full name.)  Exception text
interpolated into the error messages is elided. -/
def safeReplace (orig final output : String) (fs : FS) (env : ReplaceEnv) :
    ReplaceResult :=
  let backup := orig ++ ".bak"
  if !env.rename1Ok then
    let fs1 := if fsExists fs output then fsUnlink fs output else fs
    ⟨"failed", some "File operation failed", fs1⟩
  else
    let fs1 := fsRename fs orig backup
    if !env.rename2Ok then
      let fs2 := fsRename fs1 backup orig
      let fs3 := if fsExists fs2 output then fsUnlink fs2 output else fs2
      ⟨"failed", some "Rename failed", fs3⟩
    else
      let fs2 := fsRename fs1 output final
      if !env.backupUnlinkOk then
        let fs3 := if fsExists fs2 output then fsUnlink fs2 output else fs2
        ⟨"failed", some "File operation failed", fs3⟩
      else
        ⟨"success", none, fsUnlink fs2 backup⟩

/-! ## HDR10 remediation (hdr.py) -/

/-- Embedding of `needs_hdr10_copy(info, existing_path)` (hdr.py lines 10-19). -/
def needs_hdr10_copy (info : MediaInfo) (fs : FS)
    (existing_path : Option String := none) : Bool :=
  if !info.has_dovi_profile_8 then false
  else match existing_path with
    | some p => !fsExists fs p
    | none => true

/-- Observable outcome of the DoVi-stripping ffmpeg call: exit code, whether
it left a temp file, and the size of that file; `renameOk` models the final
temp→target rename. -/
structure HdrEnv where
  ffmpegRc : Nat := 0
  tempCreated : Bool := true
  tempSize : Nat := 0
  renameOk : Bool := true
deriving Repr, DecidableEq

structure HdrResult where
  success : Bool
  message : String
  outPath : Option String
  fs : FS
  stripRan : Bool

/-- The target path `dest_dir / (info.path.stem + ".HDR10.mkv")`. -/
def hdrOutputPath (srcPath destDir : String) : String :=
  pathJoin destDir (pathStem srcPath ++ ".HDR10.mkv")

/-- Embedding of `create_hdr10_copy(info, dest_dir)` (hdr.py lines 22-97).  `stripRan`
records whether the stripping ffmpeg invocation was performed.  The
`output_size < input_size * 0.9` floor is the exact rational comparison
`10 * output_size < 9 * input_size`; stderr text interpolated into the
ffmpeg-failure message is elided. -/
def create_hdr10_copy (info : MediaInfo) (destDir : String) (fs : FS)
    (env : HdrEnv) : HdrResult :=
  if !info.has_dovi_profile_8 then
    ⟨false, "Not DoVi Profile 8", none, fs, false⟩
  else
    let output := hdrOutputPath info.path destDir
    if fsExists fs output then
      ⟨true, "HDR10 copy already exists", some output, fs, false⟩
    else
      let temp := pathWithSuffix output ".tmp.mkv"
      let fs1 := if env.tempCreated then fsWrite fs temp env.tempSize else fs
      if env.ffmpegRc ≠ 0 then
        let fs2 := if fsExists fs1 temp then fsUnlink fs1 temp else fs1
        ⟨false, "ffmpeg failed", none, fs2, true⟩
      else if !fsExists fs1 temp then
        ⟨false, "Output file not created", none, fs1, true⟩
      else
        let outputSize := (fs1 temp).getD 0
        let inputSize := (fs1 info.path).getD 0
        if outputSize * 10 < inputSize * 9 then
          ⟨false, "Output too small: " ++ toString outputSize ++ " vs " ++
            toString inputSize, none, fsUnlink fs1 temp, true⟩
        else if env.renameOk then
          ⟨true, "HDR10 copy created", some output,
            fsRename fs1 temp output, true⟩
        else
          ⟨false, "Rename failed", none, fsUnlink fs1 temp, true⟩

/-! ## Subtitle pipeline (subtitles.py, constants.py) -/

def LANG_CODE_MAP : List (String × String) :=
  [("eng", "en"), ("spa", "es"), ("fre", "fr"), ("fra", "fr"),
   ("deu", "de"), ("ger", "de"), ("ita", "it"), ("por", "pt"),
   ("jpn", "ja"), ("chi", "zh"), ("zho", "zh"), ("kor", "ko"),
   ("rus", "ru"), ("ara", "ar"), ("nld", "nl"), ("dut", "nl"),
   ("swe", "sv"), ("dan", "da"), ("nor", "no"), ("fin", "fi"),
   ("pol", "pl"), ("tur", "tr"), ("tha", "th"), ("vie", "vi"),
   ("hun", "hu"), ("ces", "cs"), ("cze", "cs"), ("ell", "el"),
   ("gre", "el"), ("heb", "he"), ("hin", "hi"), ("ind", "id"),
   ("msa", "ms"), ("may", "ms"), ("ron", "ro"), ("rum", "ro"),
   ("ukr", "uk"), ("bul", "bg"), ("hrv", "hr"), ("slk", "sk"),
   ("slo", "sk"), ("slv", "sl"), ("srp", "sr"), ("cat", "ca"),
   ("eus", "eu"), ("baq", "eu"), ("glg", "gl"), ("lit", "lt"),
   ("lav", "lv"), ("est", "et"), ("isl", "is"), ("ice", "is"),
   ("mlt", "mt"), ("cym", "cy"), ("wel", "cy"), ("gle", "ga"),
   ("iri", "ga"), ("und", "un")]

/-- Embedding of `normalize_lang_code(lang_3)` (subtitles.py lines 38-43):
`LANG_CODE_MAP.get(lang_3.lower())`. -/
def normalize_lang_code (lang3 : String) : Option String :=
  (LANG_CODE_MAP.find? (fun q => q.1 == strLower lang3)).map (·.2)

/-- Per-track outcome of the extraction ffmpeg call and (for image tracks)
the external OCR ripper, keyed by stream index. -/
structure SubEnv where
  ffmpegRc : Nat → Nat := fun _ => 0
  ffmpegStderr : Nat → String := fun _ => ""
  ocrSuccess : Nat → Bool := fun _ => true
  ocrMsg : Nat → String := fun _ => ""

structure ExtractResult where
  track_index : Nat
  language : String
  codec : String
  kind : String
  output : String
  success : Bool
  ocr_performed : Bool
  sup_deleted : Bool
deriving Repr, DecidableEq

/-- Assoc-list model of the `lang_counts` dict. -/
def bumpCount (counts : List (String × Nat)) (lang : String) :
    List (String × Nat) × Nat :=
  match counts.find? (fun q => q.1 == lang) with
  | some q =>
    (counts.map (fun r => if r.1 == lang then (r.1, r.2 + 1) else r), q.2 + 1)
  | none => (counts ++ [(lang, 1)], 1)

/-- Python truthiness default `sub.language or "und"`. -/
def langOrUnd : Option String → String
  | none => "und"
  | some l => if l = "" then "und" else l

/-- Body of the `extract_subtitles` loop for one already-selected track. -/
def extractOne (output_base : String) (env : SubEnv)
    (sub : SubtitleTrack) (lang : String) (count : Nat) : ExtractResult :=
  let parts := [pathStem output_base, lang]
  let parts := if count > 1 then parts ++ [toString count] else parts
  let parts := if sub.is_forced then parts ++ ["forced"] else parts
  let parts :=
    if (match sub.title with
        | some t => ["sdh", "cc", "hearing"].any
            (fun x => strContainsSub (strLower t) x)
        | none => false) then parts ++ ["sdh"] else parts
  let ext :=
    if sub.is_image then ".sup"
    else if sub.codec = "ass" ∨ sub.codec = "ssa" then ".ass"
    else ".srt"
  let output_path :=
    pathJoin (pathParent output_base) (strIntercalate "." parts ++ ext)
  let ok := env.ffmpegRc sub.index = 0
  if ok ∧ sub.is_image then
    let ocrOk := env.ocrSuccess sub.index
    { track_index := sub.index, language := lang, codec := sub.codec,
      kind := "image",
      output := if ocrOk then pathWithSuffix output_path ".srt"
                else output_path,
      success := true, ocr_performed := true, sup_deleted := ocrOk }
  else
    { track_index := sub.index, language := lang, codec := sub.codec,
      kind := if sub.is_image then "image" else "text",
      output := output_path, success := ok,
      ocr_performed := false, sup_deleted := false }

/-- The selection-and-extraction loop of `extract_subtitles` (subtitles.py
lines 134-225), over the extractable tracks, threading `lang_counts`. -/
def extractLoop (info : MediaInfo) (output_base : String) (env : SubEnv) :
    List (String × Nat) → List SubtitleTrack → List ExtractResult
  | _, [] => []
  | counts, sub :: rest =>
    let lang3 := langOrUnd sub.language
    let lang := (normalize_lang_code lang3).getD "en"
    if lang ≠ "en" ∧ lang ≠ "un" then
      extractLoop info output_base env counts rest
    else
      let lang := if lang = "un" then "en" else lang
      let bc := bumpCount counts lang
      extractOne output_base env sub lang bc.2 ::
        extractLoop info output_base env bc.1 rest

/-- Embedding of `extract_subtitles(info, output_base)` (subtitles.py lines 123-226). -/
def extract_subtitles (info : MediaInfo) (output_base : String)
    (env : SubEnv) : List ExtractResult :=
  extractLoop info output_base env []
    (info.subtitle_tracks.filter (fun s => s.is_text || s.is_image))

/-! ## Per-file orchestration (recode.py, `process_file`) -/

/-- Embedding of the `MediaInfo.audio_recode_reason` property (models.py): the `"; "`-join of
the truthy per-track reasons, `None` when there are none. -/
def MediaInfo.audio_recode_reason (info : MediaInfo) : Option String :=
  let reasons := info.audio_tracks.filterMap (fun t =>
    match t.recode_reason with
    | some r => if r = "" then none else some r
    | none => none)
  if reasons = [] then none else some (strIntercalate "; " reasons)

/-- Python `f"{x}"` on an `Optional[int]`. -/
def pyOptNatStr : Option Nat → String
  | some n => toString n
  | none => "None"

/-- Python `s[-500:]`. -/
def pyTail500 (s : String) : String :=
  ⟨s.data.drop (s.data.length - 500)⟩

structure ProcEnv where
  sub : SubEnv := {}
  hdr : HdrEnv := {}
  exec : ExecEnv := {}
  probe : ProbeEnv := {}
  replace : ReplaceEnv := {}
  remuxRc : Nat := 0
  remuxStderr : String := ""
  remuxOutSize : Option Nat := none

structure ProcResult where
  status : String
  video_action : String
  audio_action : String
  subtitle_action : String
  dovi_action : String
  subtitles_extracted : List ExtractResult
  hdr10_copy : Option (Bool × String × Option String)
  error : Option String
  output_path : Option String
  fs : FS

/-- The tail of `process_file` shared by the remux and transcode branches:
validate the candidate, then run the replacement protocol
(recode.py lines 198-237). -/
def validateThenReplace (info : MediaInfo) (final output : String) (fs : FS)
    (env : ProcEnv) : String × Option String × Option String × FS :=
  let v := validate_output ((fs info.path).getD 0)
    (!info.audio_tracks.isEmpty) (fs output) env.probe
  if !v.1 then
    let fs1 := if fsExists fs output then fsUnlink fs output else fs
    ("failed", some ("Validation failed: " ++ v.2), none, fs1)
  else
    let r := safeReplace info.path final output fs env.replace
    if r.status = "failed" then ("failed", r.error, none, r.fs)
    else ("success", none, some final, r.fs)

/-- Embedding of `process_file(info, dry_run, quiet, use_hardware, ...)`
(recode.py lines 75-237). -/
def process_file (info : MediaInfo) (dry_run : Bool) (use_hardware : Bool)
    (fs : FS) (env : ProcEnv) : ProcResult :=
  let needs_recode := needs_processing info
  let has_subs := has_extractable_subs info
  let needs_hdr10 := needs_hdr10_copy info fs
  if !needs_recode && !has_subs && !needs_hdr10 then
    ⟨"compatible", "copy", "copy", "none", "none", [], none, none, none, fs⟩
  else
    let video_action :=
      if info.needs_video_recode then
        "recode: " ++ (info.video_recode_reason.getD "None")
      else "copy"
    let audio_action :=
      if info.needs_audio_recode then
        "recode: " ++
          (match info.audio_recode_reason with
           | some r => r
           | none => "None")
      else "copy"
    let subtitle_action :=
      if has_subs then
        let text_count := info.subtitle_tracks.countP (·.is_text)
        let image_count := info.subtitle_tracks.countP (·.is_image)
        let sub_parts :=
          (if text_count ≠ 0 then [toString text_count ++ " text"] else []) ++
          (if image_count ≠ 0 then [toString image_count ++ " image"] else [])
        "extract " ++ strIntercalate ", " sub_parts ++
          " subtitle(s), remux to strip"
      else "none"
    let dovi_action :=
      if needs_hdr10 then
        "create HDR10 copy (DoVi Profile " ++ pyOptNatStr info.dovi_profile
          ++ ")"
      else "none"
    if dry_run then
      ⟨"would_process", video_action, audio_action, subtitle_action,
        dovi_action, [], none, none, none, fs⟩
    else
      let final_path := pathWithSuffix info.path ".mkv"
      let output_path := pathWithSuffix info.path ".xbox.mkv"
      let subtitles_extracted :=
        if has_subs then extract_subtitles info final_path env.sub else []
      let hdrStep :=
        if needs_hdr10 then
          let r := create_hdr10_copy info (pathParent info.path) fs env.hdr
          (some (r.success, r.message, r.outPath), r.fs)
        else (none, fs)
      let hdr10_copy := hdrStep.1
      let fs := hdrStep.2
      if !needs_recode && has_subs then
        let fs1 := fsApplyOut fs output_path env.remuxOutSize
        if env.remuxRc ≠ 0 then
          let fs2 := if fsExists fs1 output_path then fsUnlink fs1 output_path
                     else fs1
          ⟨"failed", video_action, audio_action, subtitle_action, dovi_action,
            subtitles_extracted, hdr10_copy,
            some (if env.remuxStderr = "" then "Remux failed"
                  else pyTail500 env.remuxStderr), none, fs2⟩
        else
          let t := validateThenReplace info final_path output_path fs1 env
          ⟨t.1, video_action, audio_action, subtitle_action, dovi_action,
            subtitles_extracted, hdr10_copy, t.2.1, t.2.2.1, t.2.2.2⟩
      else if !needs_recode then
        ⟨"success", video_action, audio_action, subtitle_action, dovi_action,
          subtitles_extracted, hdr10_copy, none, some info.path, fs⟩
      else
        let tr := run_ffmpeg_with_fallback info output_path use_hardware fs
          env.exec
        if !tr.success then
          let fs2 := if fsExists tr.fs output_path then
                       fsUnlink tr.fs output_path
                     else tr.fs
          ⟨"failed", video_action, audio_action, subtitle_action, dovi_action,
            subtitles_extracted, hdr10_copy,
            some (if tr.error = "" then "Unknown error"
                  else pyTail500 tr.error), none, fs2⟩
        else
          let t := validateThenReplace info final_path output_path tr.fs env
          ⟨t.1, video_action, audio_action, subtitle_action, dovi_action,
            subtitles_extracted, hdr10_copy, t.2.1, t.2.2.1, t.2.2.2⟩

/-! ## Theorems -/

/-! Helper lemmas about the filesystem primitives. -/

theorem fsRename_dst (fs : FS) (src dst : String) :
    fsRename fs src dst dst = fs src := by
  simp [fsRename]

theorem fsRename_src (fs : FS) (src dst : String) (h : src ≠ dst) :
    fsRename fs src dst src = none := by
  simp [fsRename, h]

theorem fsRename_other (fs : FS) (src dst p : String) (h1 : p ≠ dst)
    (h2 : p ≠ src) : fsRename fs src dst p = fs p := by
  simp [fsRename, h1, h2]

theorem fsUnlink_self (fs : FS) (path : String) :
    fsUnlink fs path path = none := by
  simp [fsUnlink]

theorem fsUnlink_other (fs : FS) (path p : String) (h : p ≠ path) :
    fsUnlink fs path p = fs p := by
  simp [fsUnlink, h]

/-- Claim C2, counterexample: an 8-channel track is flagged, but its recode
reason records the layout label `"7.1"`, not the `"8ch"` that the stated
`"5.1" for 6-channel and "Nch" otherwise` rule predicts. -/
theorem audio_label_counterexample :
    (analyzeAudioTrack { index := 1, codec := "ac3", channels := 8 }).needs_recode
        = true
    ∧ (analyzeAudioTrack { index := 1, codec := "ac3", channels := 8 }).recode_reason
        = some "ac3 7.1 -> AAC stereo"
    ∧ (analyzeAudioTrack { index := 1, codec := "ac3", channels := 8 }).recode_reason
        ≠ some "ac3 8ch -> AAC stereo" := by
  refine ⟨rfl, rfl, ?_⟩
  decide

/-- Claim C2 (amended): the Analyzer flags an audio track iff its channel
count exceeds 2, regardless of codec; the reason of a flagged track records the
source codec, the layout label — `"5.1"` for 6 channels, `"7.1"` for 8
channels, `"Nch"` otherwise — and the target `"AAC stereo"`. -/
theorem audio_recode_flag_and_reason (info : MediaInfo) (t : AudioTrack)
    (ht : t ∈ info.audio_tracks) (h0 : t.needs_recode = false) :
    analyzeAudioTrack t ∈ (analyze_recode_needs info).audio_tracks
    ∧ ((analyzeAudioTrack t).needs_recode = true ↔ 2 < t.channels)
    ∧ (2 < t.channels → (analyzeAudioTrack t).recode_reason =
        some (t.codec ++ " " ++
          (if t.channels = 6 then "5.1"
           else if t.channels = 8 then "7.1"
           else toString t.channels ++ "ch") ++ " -> AAC stereo")) := by
  refine ⟨?_, ?_, ?_⟩
  · have : (analyze_recode_needs info).audio_tracks =
        info.audio_tracks.map analyzeAudioTrack := by
      simp only [analyze_recode_needs]
      split <;> rfl
    rw [this]
    exact List.mem_map_of_mem _ ht
  · unfold analyzeAudioTrack
    by_cases h : 2 < t.channels
    · simp [h]
    · simp [h, h0]
  · intro h
    unfold analyzeAudioTrack
    simp only [h, if_pos]
    have : chLabel t.channels =
        (if t.channels = 6 then "5.1"
         else if t.channels = 8 then "7.1"
         else toString t.channels ++ "ch") := by
      unfold chLabel
      by_cases h6 : t.channels = 6
      · simp only [h6]; decide
      · by_cases h8 : t.channels = 8
        · simp only [h8]; decide
        · simp [h6, h8]
    simp [this]

/-- Claim C2 witness: concrete instantiation on a 6-channel DTS track. -/
theorem audio_recode_flag_and_reason_witness :
    analyzeAudioTrack { index := 1, codec := "dts", channels := 6 } ∈
        (analyze_recode_needs
          { path := "m.mkv",
            audio_tracks := [{ index := 1, codec := "dts", channels := 6 }] }
        ).audio_tracks
    ∧ (analyzeAudioTrack { index := 1, codec := "dts", channels := 6 }
        ).recode_reason = some "dts 5.1 -> AAC stereo" := by
  have h := audio_recode_flag_and_reason
    { path := "m.mkv",
      audio_tracks := [{ index := 1, codec := "dts", channels := 6 }] }
    { index := 1, codec := "dts", channels := 6 }
    (by decide) rfl
  refine ⟨h.1, ?_⟩
  have := h.2.2 (by decide)
  simpa using this

/-- Claim C3: a compatible video codec (`h264`, `hevc`, `vp9`) is left with
needs-video-recode false; any other non-empty codec string sets it true with
a reason recording the offending codec. -/
theorem video_recode_analysis (info : MediaInfo)
    (h0 : info.needs_video_recode = false) :
    (∀ c, info.video_codec = some c → c ∈ COMPATIBLE_VIDEO_CODECS →
      (analyze_recode_needs info).needs_video_recode = false)
    ∧ (∀ c, info.video_codec = some c → c ≠ "" →
        c ∉ COMPATIBLE_VIDEO_CODECS →
      (analyze_recode_needs info).needs_video_recode = true
      ∧ (analyze_recode_needs info).video_recode_reason =
          some ("incompatible codec: " ++ c)) := by
  constructor
  · intro c hc hmem
    simp only [analyze_recode_needs, hc]
    rw [if_neg]
    · exact h0
    · rintro ⟨-, habs⟩
      exact habs hmem
  · intro c hc hne hnmem
    simp only [analyze_recode_needs, hc]
    rw [if_pos]
    · exact ⟨rfl, rfl⟩
    · exact ⟨by simpa [optStrTruthy] using hne, by simpa using hnmem⟩

/-- Claim C3 witness: `hevc` stays compatible, `mpeg4` is flagged. -/
theorem video_recode_analysis_witness :
    (analyze_recode_needs { path := "a.mkv", video_codec := some "hevc" }
      ).needs_video_recode = false
    ∧ (analyze_recode_needs { path := "b.avi", video_codec := some "mpeg4" }
        ).needs_video_recode = true := by
  constructor
  · exact (video_recode_analysis { path := "a.mkv", video_codec := some "hevc" }
      rfl).1 "hevc" rfl (by decide)
  · exact ((video_recode_analysis { path := "b.avi", video_codec := some "mpeg4" }
      rfl).2 "mpeg4" rfl (by decide) (by decide)).1

/-- Claim C10: with video recode needed, hardware enabled and a codec outside
the hardware-incompatible set, an unprobed (`None`) bit depth is treated as
hardware-eligible: `can_use_vaapi` returns true. -/
theorem can_use_vaapi_unknown_bit_depth (info : MediaInfo)
    (h1 : info.needs_video_recode = true)
    (h2 : info.video_bit_depth = none)
    (h3 : ∀ c, info.video_codec = some c → c ∉ VAAPI_INCOMPATIBLE_CODECS) :
    can_use_vaapi info true = true := by
  unfold can_use_vaapi
  simp only [h1, h2, Bool.not_true, Bool.false_or]
  cases hvc : info.video_codec with
  | none => simp
  | some c =>
    have := h3 c hvc
    simp [this]

/-- Claim C10 witness: an `mpeg2video` source with unknown bit depth. -/
theorem can_use_vaapi_unknown_bit_depth_witness :
    can_use_vaapi
      { path := "m.mpg", video_codec := some "mpeg2video",
        video_bit_depth := none, needs_video_recode := true } true = true :=
  can_use_vaapi_unknown_bit_depth _ rfl rfl
    (by intro c hc; cases hc; decide)

/-- Claim C6: an existing candidate whose size is strictly below 10% of the
size of the input is rejected with the size message, whatever the duration-parity
and stream-presence probes would report. -/
theorem validate_output_size_floor (inputSize osize : Nat) (hasAudio : Bool)
    (env : ProbeEnv) (h : (osize : ℚ) < (inputSize : ℚ) * (1/10)) :
    validate_output inputSize hasAudio (some osize) env =
      (false, "Output too small: " ++ toString osize ++ " vs " ++
        toString inputSize) := by
  have hn : osize * 10 < inputSize := by
    have hq : ((osize * 10 : ℕ) : ℚ) < ((inputSize : ℕ) : ℚ) := by
      push_cast
      linarith
    exact_mod_cast hq
  simp [validate_output, hn]

/-- Claim C6 witness: a 99-byte candidate against a 1000-byte input, with a
probe environment under which every other check would pass. -/
theorem validate_output_size_floor_witness :
    validate_output 1000 true (some 99)
      { durParseOk := true, inDur := 50, outDur := 50,
        streamParseOk := true, outHasVideo := true, outHasAudio := true } =
      (false, "Output too small: 99 vs 1000") :=
  validate_output_size_floor 1000 99 true _ (by norm_num)

/-- A concrete two-file library used by witnesses: the original and a
validated candidate. -/
def exampleFS : FS := fun p =>
  if p = "movie.avi" then some 1000
  else if p = "movie.xbox.mkv" then some 900
  else none

/-- Claim C1: when the second rename (candidate to final name) fails, the
replacement protocol restores the original at its path with its content
unchanged, leaves no backup file, deletes the candidate artifact, and
reports failure. -/
theorem replacement_rollback (orig final output : String) (fs : FS)
    (env : ReplaceEnv) (c : Nat)
    (h1 : env.rename1Ok = true) (h2 : env.rename2Ok = false)
    (hc : fs orig = some c) (hno : output ≠ orig) :
    (safeReplace orig final output fs env).status = "failed"
    ∧ (safeReplace orig final output fs env).fs orig = some c
    ∧ (safeReplace orig final output fs env).fs (orig ++ ".bak") = none
    ∧ (safeReplace orig final output fs env).fs output = none := by
  have hback : (orig ++ ".bak") ≠ orig := by
    intro h
    have hlen := congrArg String.length h
    rw [String.length_append] at hlen
    have : ".bak".length = 0 := by omega
    exact absurd this (by decide)
  have hstep : safeReplace orig final output fs env =
      ⟨"failed", some "Rename failed",
        (fun fs2 => if fsExists fs2 output then fsUnlink fs2 output else fs2)
          (fsRename (fsRename fs orig (orig ++ ".bak")) (orig ++ ".bak")
            orig)⟩ := by
    simp [safeReplace, h1, h2]
  rw [hstep]
  have hfs2orig : fsRename (fsRename fs orig (orig ++ ".bak"))
      (orig ++ ".bak") orig orig = some c := by
    rw [fsRename_dst, fsRename_dst, hc]
  have hfs2back : fsRename (fsRename fs orig (orig ++ ".bak"))
      (orig ++ ".bak") orig (orig ++ ".bak") = none :=
    fsRename_src _ _ _ hback
  refine ⟨rfl, ?_, ?_, ?_⟩
  · by_cases hex : fsExists (fsRename (fsRename fs orig (orig ++ ".bak"))
        (orig ++ ".bak") orig) output
    · simp only [hex, if_true]
      rw [fsUnlink_other _ _ _ (Ne.symm hno)]
      exact hfs2orig
    · simp only [hex, if_false]
      exact hfs2orig
  · by_cases hex : fsExists (fsRename (fsRename fs orig (orig ++ ".bak"))
        (orig ++ ".bak") orig) output
    · simp only [hex, if_true]
      by_cases hob : orig ++ ".bak" = output
      · rw [hob, fsUnlink_self]
      · rw [fsUnlink_other _ _ _ hob]
        exact hfs2back
    · simp only [hex, if_false]
      exact hfs2back
  · by_cases hex : fsExists (fsRename (fsRename fs orig (orig ++ ".bak"))
        (orig ++ ".bak") orig) output
    · simp only [hex, if_true, fsUnlink_self]
    · simp only [hex, if_false]
      simpa [fsExists, Option.not_isSome_iff_eq_none] using hex

/-- Claim C1 witness: rollback after a failed second rename on a concrete
library file. -/
theorem replacement_rollback_witness :
    (safeReplace "movie.avi" "movie.mkv" "movie.xbox.mkv" exampleFS
      { rename2Ok := false }).status = "failed"
    ∧ (safeReplace "movie.avi" "movie.mkv" "movie.xbox.mkv" exampleFS
        { rename2Ok := false }).fs "movie.avi" = some 1000
    ∧ (safeReplace "movie.avi" "movie.mkv" "movie.xbox.mkv" exampleFS
        { rename2Ok := false }).fs "movie.avi.bak" = none
    ∧ (safeReplace "movie.avi" "movie.mkv" "movie.xbox.mkv" exampleFS
        { rename2Ok := false }).fs "movie.xbox.mkv" = none :=
  replacement_rollback "movie.avi" "movie.mkv" "movie.xbox.mkv" exampleFS
    { rename2Ok := false } 1000 rfl rfl rfl (by decide)

theorem swStage_swAttempted (h : Bool) (o : String) (f : FS) (e : ExecEnv) :
    (swStage h o f e).swAttempted = true := by
  unfold swStage
  split <;> rfl

theorem swStage_hwAttempted (h : Bool) (o : String) (f : FS) (e : ExecEnv) :
    (swStage h o f e).hwAttempted = h := by
  unfold swStage
  split <;> rfl

/-- Claim C4: the fallback executor skips the hardware attempt entirely when
the eligibility predicate is false; on a non-zero hardware exit whose error
text matches an accelerator-initialization signature it deletes the partial
output and makes exactly one software attempt; on a non-zero hardware exit
with no matching signature it fails immediately with no software retry. -/
theorem fallback_executor_behavior (info : MediaInfo) (output : String)
    (use_hardware : Bool) (fs : FS) (env : ExecEnv) :
    (can_use_vaapi info use_hardware = false →
      run_ffmpeg_with_fallback info output use_hardware fs env =
        swStage false output fs env
      ∧ (run_ffmpeg_with_fallback info output use_hardware fs env
          ).hwAttempted = false
      ∧ (run_ffmpeg_with_fallback info output use_hardware fs env
          ).swAttempted = true)
    ∧ (can_use_vaapi info use_hardware = true → env.hwRc ≠ 0 →
        isVaapiError env.hwStderr = true →
      (fun fs1 => (fun fsMid =>
        run_ffmpeg_with_fallback info output use_hardware fs env =
          swStage true output fsMid env
        ∧ fsMid output = none
        ∧ (run_ffmpeg_with_fallback info output use_hardware fs env
            ).swAttempted = true)
        (if fsExists fs1 output then fsUnlink fs1 output else fs1))
        (fsApplyOut fs output env.hwOutSize))
    ∧ (can_use_vaapi info use_hardware = true → env.hwRc ≠ 0 →
        isVaapiError env.hwStderr = false →
      (run_ffmpeg_with_fallback info output use_hardware fs env
          ).success = false
      ∧ (run_ffmpeg_with_fallback info output use_hardware fs env
          ).swAttempted = false
      ∧ (run_ffmpeg_with_fallback info output use_hardware fs env
          ).error = env.hwStderr) := by
  refine ⟨?_, ?_, ?_⟩
  · intro h
    have he : run_ffmpeg_with_fallback info output use_hardware fs env =
        swStage false output fs env := by
      simp [run_ffmpeg_with_fallback, h]
    exact ⟨he, by rw [he]; exact swStage_hwAttempted _ _ _ _,
      by rw [he]; exact swStage_swAttempted _ _ _ _⟩
  · intro h hrc herr
    simp only
    have he : run_ffmpeg_with_fallback info output use_hardware fs env =
        swStage true output
          ((fun fs1 => if fsExists fs1 output then fsUnlink fs1 output
            else fs1) (fsApplyOut fs output env.hwOutSize)) env := by
      simp [run_ffmpeg_with_fallback, h, hrc, herr]
    refine ⟨he, ?_, by rw [he]; exact swStage_swAttempted _ _ _ _⟩
    by_cases hex : fsExists (fsApplyOut fs output env.hwOutSize) output
    · simp [hex, fsUnlink_self]
    · simp only [hex, if_false]
      simpa [fsExists, Option.not_isSome_iff_eq_none] using hex
  · intro h hrc herr
    have he : run_ffmpeg_with_fallback info output use_hardware fs env =
        ⟨true, false, false, env.hwStderr,
          fsApplyOut fs output env.hwOutSize⟩ := by
      simp [run_ffmpeg_with_fallback, h, hrc, herr]
    rw [he]
    exact ⟨rfl, rfl, rfl⟩

/-- A hardware-eligible probe result used by the executor witness. -/
def hwEligibleInfo : MediaInfo :=
  { path := "in.avi", video_codec := some "mpeg2video",
    video_bit_depth := some 8, needs_video_recode := true }

/-- An execution environment whose hardware attempt fails with a recognized
accelerator-initialization signature and whose software attempt succeeds. -/
def hwInitFailEnv : ExecEnv :=
  { hwRc := 1, hwStderr := "Failed setup for format vaapi: x",
    hwOutSize := some 10, swRc := 0, swOutSize := some 800 }

/-- Claim C4 witness: concrete instantiation of the signature-match branch. -/
theorem fallback_executor_behavior_witness :
    (run_ffmpeg_with_fallback hwEligibleInfo "out.xbox.mkv" true
      (fun _ => none) hwInitFailEnv).swAttempted = true
    ∧ (run_ffmpeg_with_fallback hwEligibleInfo "out.xbox.mkv" true
        (fun _ => none) hwInitFailEnv).success = true := by
  have h := (fallback_executor_behavior hwEligibleInfo "out.xbox.mkv" true
    (fun _ => none) hwInitFailEnv).2.1 (by decide) (by decide) (by decide)
  refine ⟨h.2.2, ?_⟩
  rw [h.1]
  rfl

/-- A DoVi Profile 8 source, its one-file library and a strip environment in
which the stripping ffmpeg invocation fails. -/
def doviSrc : MediaInfo :=
  { path := "movie.mkv", video_codec := some "hevc",
    dovi_profile := some 8, has_dovi_profile_8 := true }

def doviFS : FS := fun p => if p = "movie.mkv" then some 1000 else none

def hdrFailEnv : HdrEnv := { ffmpegRc := 1, tempCreated := false }

/-- Claim C5, counterexample: when the strip invocation of the first call fails,
a second call on the resulting state runs the strip again — two calls
perform the strip operation twice, not at most once. -/
theorem hdr10_strip_twice_counterexample :
    (create_hdr10_copy doviSrc "." doviFS hdrFailEnv).stripRan = true
    ∧ (create_hdr10_copy doviSrc "."
        (create_hdr10_copy doviSrc "." doviFS hdrFailEnv).fs
        hdrFailEnv).stripRan = true
    ∧ ¬(((if (create_hdr10_copy doviSrc "." doviFS hdrFailEnv).stripRan
            then 1 else 0) +
         (if (create_hdr10_copy doviSrc "."
              (create_hdr10_copy doviSrc "." doviFS hdrFailEnv).fs
              hdrFailEnv).stripRan then 1 else 0) : Nat) ≤ 1) := by
  refine ⟨rfl, rfl, ?_⟩
  decide

theorem create_hdr10_success_exists (info : MediaInfo) (destDir : String)
    (fs : FS) (env : HdrEnv)
    (hs : (create_hdr10_copy info destDir fs env).success = true) :
    fsExists (create_hdr10_copy info destDir fs env).fs
      (hdrOutputPath info.path destDir) = true := by
  by_cases hd : info.has_dovi_profile_8
  · simp only [create_hdr10_copy, hd, Bool.not_true] at hs ⊢
    by_cases hex : fsExists fs (hdrOutputPath info.path destDir)
    · simp [hex]
    · simp only [hex, if_false, if_true] at hs ⊢
      by_cases hrc : env.ffmpegRc ≠ 0
      · simp [hrc] at hs
      · simp only [hrc, if_false, if_true] at hs ⊢
        by_cases htmp : fsExists
            (if env.tempCreated then
              fsWrite fs (pathWithSuffix (hdrOutputPath info.path destDir)
                ".tmp.mkv") env.tempSize
             else fs)
            (pathWithSuffix (hdrOutputPath info.path destDir) ".tmp.mkv")
        · simp only [htmp, Bool.not_true, if_false] at hs ⊢
          by_cases hsize : ((if env.tempCreated then
                fsWrite fs (pathWithSuffix (hdrOutputPath info.path destDir)
                  ".tmp.mkv") env.tempSize
              else fs)
              (pathWithSuffix (hdrOutputPath info.path destDir)
                ".tmp.mkv")).getD 0 * 10 <
              ((if env.tempCreated then
                fsWrite fs (pathWithSuffix (hdrOutputPath info.path destDir)
                  ".tmp.mkv") env.tempSize
              else fs) info.path).getD 0 * 9
          · simp [hsize] at hs
          · simp only [hsize, if_false] at hs ⊢
            by_cases hren : env.renameOk
            · simp only [hren, if_true]
              simpa [fsExists, fsRename_dst, fsExists] using htmp
            · simp [hren] at hs
        · simp [htmp] at hs
  · simp [create_hdr10_copy, hd] at hs

/-- Claim C5 (amended): HDR10 remediation is idempotent on success — if the
target `<stem>.HDR10.mkv` already exists, `create_hdr10_copy` reports
success without running the strip; consequently, when a first call succeeds,
a second call on the resulting state reports success and performs no strip
(so two calls strip at most once).  When the first call fails, the second
call re-runs the strip. -/
theorem hdr10_idempotent_on_success (info : MediaInfo) (destDir : String)
    (fs : FS) (env1 env2 : HdrEnv) (hd : info.has_dovi_profile_8 = true) :
    (fsExists fs (hdrOutputPath info.path destDir) = true →
      (create_hdr10_copy info destDir fs env1).success = true
      ∧ (create_hdr10_copy info destDir fs env1).stripRan = false)
    ∧ ((create_hdr10_copy info destDir fs env1).success = true →
        (create_hdr10_copy info destDir
          (create_hdr10_copy info destDir fs env1).fs env2).success = true
        ∧ (create_hdr10_copy info destDir
            (create_hdr10_copy info destDir fs env1).fs env2).stripRan
            = false) := by
  constructor
  · intro hex
    constructor <;> simp [create_hdr10_copy, hd, hex]
  · intro hs
    have hex := create_hdr10_success_exists info destDir fs env1 hs
    generalize hg : (create_hdr10_copy info destDir fs env1).fs = fs1 at hex ⊢
    constructor <;> simp [create_hdr10_copy, hd, hex]

/-- Claim C5 witness: a successful first strip followed by a second call that
finds the target and does not strip again. -/
theorem hdr10_idempotent_on_success_witness :
    (create_hdr10_copy doviSrc "."
      (create_hdr10_copy doviSrc "." doviFS { tempSize := 950 }).fs
      { tempSize := 950 }).success = true
    ∧ (create_hdr10_copy doviSrc "."
        (create_hdr10_copy doviSrc "." doviFS { tempSize := 950 }).fs
        { tempSize := 950 }).stripRan = false := by
  have h := (hdr10_idempotent_on_success doviSrc "." doviFS
    { tempSize := 950 } { tempSize := 950 } rfl).2 (by decide)
  exact h

/-- The English-only selection policy of claim C9, stated from the words of the spec:
a track is kept iff its language tag, normalized through the fixed
ISO 639-2→639-1 table with unmapped tags defaulting to `"en"`, yields
`"en"` or the undetermined code `"un"`. -/
def specLangPolicy (s : SubtitleTrack) : Bool :=
  (normalize_lang_code (langOrUnd s.language)).getD "en" == "en" ||
  (normalize_lang_code (langOrUnd s.language)).getD "en" == "un"

theorem extractOne_track_index (base : String) (env : SubEnv)
    (sub : SubtitleTrack) (lang : String) (count : Nat) :
    (extractOne base env sub lang count).track_index = sub.index := by
  simp only [extractOne]
  split <;> rfl

theorem extractLoop_map_index (info : MediaInfo) (base : String)
    (env : SubEnv) :
    ∀ (l : List SubtitleTrack) (counts : List (String × Nat)),
      (extractLoop info base env counts l).map (·.track_index) =
        (l.filter specLangPolicy).map (·.index)
  | [], _ => rfl
  | sub :: rest, counts => by
    unfold extractLoop
    by_cases h : (normalize_lang_code (langOrUnd sub.language)).getD "en"
        ≠ "en" ∧ (normalize_lang_code (langOrUnd sub.language)).getD "en"
        ≠ "un"
    · rw [if_pos h]
      have hp : specLangPolicy sub = false := by
        simp only [specLangPolicy, Bool.or_eq_false_iff, beq_eq_false_iff_ne]
        exact h
      rw [List.filter_cons_of_neg (by simp [hp])]
      exact extractLoop_map_index info base env rest counts
    · rw [if_neg h]
      have hp : specLangPolicy sub = true := by
        simp only [specLangPolicy, Bool.or_eq_true, beq_iff_eq]
        by_contra hc
        push_neg at hc
        exact h ⟨hc.1, hc.2⟩
      rw [List.filter_cons_of_pos (by simp [hp])]
      dsimp only
      simp only [List.map_cons, extractOne_track_index]
      rw [extractLoop_map_index info base env rest _]

/-- Claim C9: among the extractable subtitle tracks (is-text or is-image),
exactly those whose three-letter tag normalizes through the fixed table to
`"en"` or the undetermined code (unmapped tags defaulting to `"en"`) are
extracted; all others are skipped. -/
theorem subtitle_english_only_policy (info : MediaInfo) (base : String)
    (env : SubEnv) :
    (extract_subtitles info base env).map (·.track_index) =
      ((info.subtitle_tracks.filter (fun s => s.is_text || s.is_image)
        ).filter specLangPolicy).map (·.index) := by
  unfold extract_subtitles
  exact extractLoop_map_index info base env _ []

theorem mapArgs_cons_ne (x : String) (l : List String) (h : x ≠ "-map") :
    mapArgs (x :: l) = mapArgs l := by
  cases l with
  | nil => simp [mapArgs]
  | cons y rest => simp [mapArgs, h]

theorem mapArgs_cons_map (y : String) (rest : List String) :
    mapArgs ("-map" :: y :: rest) = y :: mapArgs rest := by
  simp [mapArgs]

theorem mapArgs_append_of_not_mem (l₁ l₂ : List String)
    (h : "-map" ∉ l₁) : mapArgs (l₁ ++ l₂) = mapArgs l₂ := by
  induction l₁ with
  | nil => rfl
  | cons x rest ih =>
    rw [List.cons_append,
      mapArgs_cons_ne x _ (fun hx => h (hx ▸ List.mem_cons_self x rest))]
    exact ih (fun hm => h (List.mem_cons_of_mem x hm))

theorem mapArgs_eq_nil (l : List String) (h : "-map" ∉ l) :
    mapArgs l = [] := by
  have := mapArgs_append_of_not_mem l [] h
  rwa [List.append_nil] at this

theorem flagC_ne_map (x : String) : ("-c:a:" ++ x) ≠ "-map" := by
  intro h
  have h2 : ('-' :: 'c' :: ':' :: 'a' :: ':' :: x.data) =
      ['-', 'm', 'a', 'p'] := congrArg String.data h
  injection h2 with h3 h4
  injection h4 with h5 h6
  exact absurd h5 (by decide)

theorem flagAc_ne_map (x : String) : ("-ac:a:" ++ x) ≠ "-map" := by
  intro h
  have h2 : ('-' :: 'a' :: 'c' :: ':' :: 'a' :: ':' :: x.data) =
      ['-', 'm', 'a', 'p'] := congrArg String.data h
  injection h2 with h3 h4
  injection h4 with h5 h6
  exact absurd h5 (by decide)

theorem flagB_ne_map (x : String) : ("-b:a:" ++ x) ≠ "-map" := by
  intro h
  have h2 : ('-' :: 'b' :: ':' :: 'a' :: ':' :: x.data) =
      ['-', 'm', 'a', 'p'] := congrArg String.data h
  injection h2 with h3 h4
  injection h4 with h5 h6
  exact absurd h5 (by decide)

theorem flagFilter_ne_map (x : String) : ("-filter:a:" ++ x) ≠ "-map" := by
  intro h
  have h2 : ('-' :: 'f' :: 'i' :: 'l' :: 't' :: 'e' :: 'r' :: ':' :: 'a'
      :: ':' :: x.data) = ['-', 'm', 'a', 'p'] := congrArg String.data h
  injection h2 with h3 h4
  injection h4 with h5 h6
  exact absurd h5 (by decide)

theorem audioArgs_no_map : ∀ (i : Nat) (ts : List AudioTrack),
    "-map" ∉ audioArgs i ts
  | _, [] => by simp [audioArgs]
  | i, t :: rest => by
    unfold audioArgs
    intro hmem
    rw [List.mem_append] at hmem
    rcases hmem with hm | hm
    · split at hm <;> simp only [List.mem_cons, List.not_mem_nil] at hm <;>
        rcases hm with h | h | h | h | h | h | h | h | h
      all_goals first
        | exact flagC_ne_map (toString i) h.symm
        | exact flagAc_ne_map (toString i) h.symm
        | exact flagB_ne_map (toString i) h.symm
        | exact flagFilter_ne_map (toString i) h.symm
        | exact absurd h (by decide)
    · exact audioArgs_no_map (i + 1) rest hm

theorem videoArgs_no_map (info : MediaInfo) (uv : Bool) :
    "-map" ∉ videoArgs info uv := by
  unfold videoArgs
  cases hbd : (match info.video_bit_depth with
      | some d => decide (0 < d) && decide (10 ≤ d)
      | none => false) <;>
    split_ifs <;> simp_all <;> decide

/-- Claim C7: for every probe result, destination and hardware mode, the
synthesized argument sequence maps exactly the first video stream (`0:v:0`)
and all audio streams (`0:a`) — in particular no subtitle mapping flag —
and always carries `-sn` and the `-max_muxing_queue_size` override.  (The
two free path strings are assumed not to be the literal flag `"-map"`.) -/
theorem synthesizer_mapping (info : MediaInfo) (out : String) (uv : Bool)
    (hp : info.path ≠ "-map") (ho : out ≠ "-map") :
    mapArgs (build_ffmpeg_cmd info out uv) = ["0:v:0", "0:a"]
    ∧ "-max_muxing_queue_size" ∈ build_ffmpeg_cmd info out uv
    ∧ "65536" ∈ build_ffmpeg_cmd info out uv
    ∧ "-sn" ∈ build_ffmpeg_cmd info out uv := by
  refine ⟨?_, ?_, ?_, ?_⟩
  · unfold build_ffmpeg_cmd
    rw [show (["ffmpeg"]
        ++ (if info.needs_video_recode && uv then
              ["-hwaccel", "vaapi", "-hwaccel_output_format", "vaapi",
               "-vaapi_device", "/dev/dri/renderD128"]
            else [])
        ++ ["-i", info.path]
        ++ ["-map", "0:v:0", "-map", "0:a"]
        ++ videoArgs info uv
        ++ audioArgs 0 info.audio_tracks
        ++ ["-sn"]
        ++ ["-max_muxing_queue_size", "65536"]
        ++ ["-y", out]) =
      (["ffmpeg"]
        ++ (if info.needs_video_recode && uv then
              ["-hwaccel", "vaapi", "-hwaccel_output_format", "vaapi",
               "-vaapi_device", "/dev/dri/renderD128"]
            else [])
        ++ ["-i", info.path]) ++
      ("-map" :: "0:v:0" :: "-map" :: "0:a" ::
        (videoArgs info uv ++ (audioArgs 0 info.audio_tracks ++
          ("-sn" :: ("-max_muxing_queue_size" :: "65536" ::
            ("-y" :: out :: []))))))
      from by simp]
    rw [mapArgs_append_of_not_mem]
    · rw [mapArgs_cons_map, mapArgs_cons_map]
      rw [mapArgs_eq_nil]
      intro hmem
      rcases List.mem_append.mp hmem with hm | hm
      · exact videoArgs_no_map info uv hm
      rcases List.mem_append.mp hm with hm2 | hm2
      · exact audioArgs_no_map 0 info.audio_tracks hm2
      simp only [List.mem_cons, List.not_mem_nil, or_false] at hm2
      rcases hm2 with h | h | h | h | h
        <;> first
          | exact absurd h (by decide)
          | exact ho h.symm
    · intro hmem
      rcases List.mem_append.mp hmem with hm | hm
      · rcases List.mem_append.mp hm with hm2 | hm2
        · simp at hm2
        · split at hm2 <;> simp at hm2
      · simp only [List.mem_cons, List.not_mem_nil, or_false] at hm
        rcases hm with h | h
        · exact absurd h (by decide)
        · exact hp h.symm
  · unfold build_ffmpeg_cmd
    simp
  · unfold build_ffmpeg_cmd
    simp
  · unfold build_ffmpeg_cmd
    simp

/-- Claim C7 witness: concrete instantiation on a two-track source. -/
theorem synthesizer_mapping_witness :
    mapArgs (build_ffmpeg_cmd
      { path := "in.mkv", video_codec := some "mpeg4",
        needs_video_recode := true,
        audio_tracks := [{ index := 1, codec := "ac3", channels := 6,
                           needs_recode := true },
                         { index := 2, codec := "aac", channels := 2 }] }
      "out.xbox.mkv" false) = ["0:v:0", "0:a"]
    ∧ "-sn" ∈ build_ffmpeg_cmd
      { path := "in.mkv", video_codec := some "mpeg4",
        needs_video_recode := true,
        audio_tracks := [{ index := 1, codec := "ac3", channels := 6,
                           needs_recode := true },
                         { index := 2, codec := "aac", channels := 2 }] }
      "out.xbox.mkv" false := by
  have h := synthesizer_mapping
    { path := "in.mkv", video_codec := some "mpeg4",
      needs_video_recode := true,
      audio_tracks := [{ index := 1, codec := "ac3", channels := 6,
                         needs_recode := true },
                       { index := 2, codec := "aac", channels := 2 }] }
    "out.xbox.mkv" false (by decide) (by decide)
  exact ⟨h.1, h.2.2.2⟩

/-- Claim C8, counterexample: a DoVi Profile 8 source with a compatible
codec, stereo audio and no subtitles is not reported `"compatible"` — the
HDR10-copy need routes it through processing and it is reported
`"success"`. -/
theorem dovi8_not_compatible_counterexample :
    needs_processing doviSrc = false
    ∧ has_extractable_subs doviSrc = false
    ∧ doviSrc.has_dovi_profile_8 = true
    ∧ (process_file doviSrc false true doviFS
        { hdr := { tempSize := 950 } }).status = "success"
    ∧ (process_file doviSrc false true doviFS
        { hdr := { tempSize := 950 } }).status ≠ "compatible" := by
  refine ⟨rfl, rfl, rfl, rfl, ?_⟩
  decide

/-- Claim C8 (amended): a DoVi Profile 8 source with no other
incompatibilities is not short-circuited as `"compatible"`; the pipeline
reports `"success"` with no transcode (video and audio actions `"copy"`,
output path the unchanged original) and records the HDR10 remediation
outcome, which — when its strip succeeds — leaves the `.HDR10.mkv` sibling
on disk. -/
theorem dovi8_only_reports_success (info : MediaInfo) (uh : Bool) (fs : FS)
    (env : ProcEnv)
    (hd : info.has_dovi_profile_8 = true)
    (hnr : needs_processing info = false)
    (hns : has_extractable_subs info = false) :
    (process_file info false uh fs env).status = "success"
    ∧ (process_file info false uh fs env).video_action = "copy"
    ∧ (process_file info false uh fs env).audio_action = "copy"
    ∧ (process_file info false uh fs env).output_path = some info.path
    ∧ (process_file info false uh fs env).hdr10_copy =
        some ((create_hdr10_copy info (pathParent info.path) fs
                 env.hdr).success,
              (create_hdr10_copy info (pathParent info.path) fs
                 env.hdr).message,
              (create_hdr10_copy info (pathParent info.path) fs
                 env.hdr).outPath)
    ∧ ((create_hdr10_copy info (pathParent info.path) fs env.hdr).success
          = true →
        fsExists (process_file info false uh fs env).fs
          (hdrOutputPath info.path (pathParent info.path)) = true) := by
  have hv : info.needs_video_recode = false := by
    have := hnr
    unfold needs_processing at this
    exact (Bool.or_eq_false_iff.mp this).1
  have ha : info.needs_audio_recode = false := by
    have := hnr
    unfold needs_processing at this
    exact (Bool.or_eq_false_iff.mp this).2
  have hhdr : needs_hdr10_copy info fs = true := by
    simp [needs_hdr10_copy, hd]
  have he : process_file info false uh fs env =
      { status := "success", video_action := "copy",
        audio_action := "copy", subtitle_action := "none",
        dovi_action := "create HDR10 copy (DoVi Profile " ++
          pyOptNatStr info.dovi_profile ++ ")",
        subtitles_extracted := [],
        hdr10_copy :=
          some ((create_hdr10_copy info (pathParent info.path) fs
                   env.hdr).success,
                (create_hdr10_copy info (pathParent info.path) fs
                   env.hdr).message,
                (create_hdr10_copy info (pathParent info.path) fs
                   env.hdr).outPath),
        error := none, output_path := some info.path,
        fs := (create_hdr10_copy info (pathParent info.path) fs
          env.hdr).fs } := by
    unfold process_file
    rw [hnr, hns, hhdr]
    simp [hv, ha]
  rw [he]
  refine ⟨rfl, rfl, rfl, rfl, rfl, ?_⟩
  intro hs
  exact create_hdr10_success_exists info (pathParent info.path) fs env.hdr hs

/-- Claim C8 witness: concrete DoVi Profile 8 source processed end to end;
the sibling `movie.HDR10.mkv` exists afterwards. -/
theorem dovi8_only_reports_success_witness :
    (process_file doviSrc false true doviFS
      { hdr := { tempSize := 950 } }).output_path = some "movie.mkv"
    ∧ fsExists (process_file doviSrc false true doviFS
        { hdr := { tempSize := 950 } }).fs
        (hdrOutputPath "movie.mkv" (pathParent "movie.mkv")) = true := by
  have h := dovi8_only_reports_success doviSrc true doviFS
    { hdr := { tempSize := 950 } } rfl rfl rfl
  exact ⟨h.2.2.2.1, h.2.2.2.2.2 (by decide)⟩

end XboxMediaUtils
